import Mathlib

/-!
Shallow embedding of the frame-orchestration engine of the repository
(src/RenderGraph.hpp): the `RenderGraph` class, its `init` and
`executeFrame` member functions, and the `RenderPassNode` pass
descriptors.

Modelling conventions:
* Vulkan handle and enum types (`vk::Image`, `vk::ImageLayout`,
  `vk::AccessFlags2`, `vk::PipelineStageFlags2`) are modelled as `Nat`
  (only identity and equality of these values matter to the
  orchestrator).
* `m_currentFrame` is a C++ `uint64_t`; its increment is modelled as
  addition modulo `2 ^ 64`.  `m_imageCount` is a `uint32_t` produced by
  `static_cast<uint32_t>(m_swapchainImages.size())`; the cast is
  modelled as reduction modulo `2 ^ 32`.
* Device-side calls made by `executeFrame` (fence wait, acquire, command
  recording, fence reset, submit, present) are recorded as an `Event`
  trace in program order; the device itself is the environment and the
  acquired image index is an input.
* Unchecked C++ operations (`operator%` with a zero divisor,
  `std::vector::operator[]` out of bounds) are undefined behavior; a run
  that reaches one is modelled as `Except.error RGError.undefinedBehavior`.
  The only explicit `throw` in the source (in `init`) is modelled as an
  explicit error message.
-/

namespace RenderGraph

/-- Raw value of a vk::ImageLayout enumerant. -/
abbrev ImageLayout := Nat

/-- Raw bitmask value of vk::AccessFlags2. -/
abbrev AccessFlags2 := Nat

/-- Raw bitmask value of vk::PipelineStageFlags2. -/
abbrev PipelineStageFlags2 := Nat

/-- Raw vk::Image handle. -/
abbrev Image := Nat

/-- The Vulkan constant VK_QUEUE_FAMILY_IGNORED (0xFFFFFFFF). -/
def VK_QUEUE_FAMILY_IGNORED : Nat := 4294967295

/-- vk::ImageLayout::eUndefined (enum value 0), the default layout in
RenderPassNode. -/
def eUndefined : ImageLayout := 0

/-- vk::ImageAspectFlagBits::eColor (bit value 1), used in the fixed
subresource range of every barrier recorded by executeFrame. -/
def eColorAspect : Nat := 1

/-- RenderPassNode from src/RenderGraph.hpp lines 30-50.  The record
callback receives the acquired image index and records commands into the
per-frame command buffer; it is modelled as a function from the image
index to the list of (opaque) commands it records, absent when the C++
std::function is empty. -/
structure RenderPassNode where
  name : String := ""
  recordFunc : Option (Nat → List Nat) := none
  oldLayout : ImageLayout := eUndefined
  newLayout : ImageLayout := eUndefined
  srcAccessMask : AccessFlags2 := 0
  dstAccessMask : AccessFlags2 := 0
  srcStageMask : PipelineStageFlags2 := 0
  dstStageMask : PipelineStageFlags2 := 0

/-- vk::ImageSubresourceRange as filled in by executeFrame (lines
155-159 of src/RenderGraph.hpp). -/
structure SubresourceRange where
  aspectMask : Nat
  baseMipLevel : Nat
  levelCount : Nat
  baseArrayLayer : Nat
  layerCount : Nat
deriving DecidableEq, Repr

/-- vk::ImageMemoryBarrier2, with the fields executeFrame fills in
(lines 145-159 of src/RenderGraph.hpp). -/
structure ImageMemoryBarrier2 where
  srcStageMask : PipelineStageFlags2
  srcAccessMask : AccessFlags2
  dstStageMask : PipelineStageFlags2
  dstAccessMask : AccessFlags2
  oldLayout : ImageLayout
  newLayout : ImageLayout
  srcQueueFamilyIndex : Nat
  dstQueueFamilyIndex : Nat
  image : Image
  subresourceRange : SubresourceRange
deriving DecidableEq, Repr

/-- A vk::raii::Semaphore; the orchestrator only cares about the state
it was created in (vk::SemaphoreCreateInfo creates it unsignaled). -/
structure Semaphore where
  createdSignaled : Bool
deriving DecidableEq, Repr

/-- A vk::raii::Fence; createdSignaled records whether
vk::FenceCreateFlagBits::eSignaled was passed at creation. -/
structure Fence where
  createdSignaled : Bool
deriving DecidableEq, Repr

/-- A vk::raii::CommandBuffer allocated from the external pool;
executeFrame only indexes the vector, so the buffer carries only its
allocation level (ePrimary in init). -/
structure CommandBuffer where
  primaryLevel : Bool
deriving DecidableEq, Repr

/-- One device-visible action performed by executeFrame, in program
order.  The slot argument is the frameIndex computed at line 122 of
src/RenderGraph.hpp; acquireNextImage and presentKHR also carry the
acquired image index. -/
inductive Event where
  | waitForFences (slot : Nat)
  | acquireNextImage (slot : Nat) (imageIndex : Nat)
  | beginCommandBuffer (slot : Nat)
  | pipelineBarrier2 (slot : Nat) (barrier : ImageMemoryBarrier2)
  | userCommand (slot : Nat) (cmd : Nat)
  | endCommandBuffer (slot : Nat)
  | resetFences (slot : Nat)
  | queueSubmit (slot : Nat)
  | presentKHR (slot : Nat) (imageIndex : Nat)
deriving DecidableEq, Repr

/-- Errors of a modelled run: undefinedBehavior marks a run that reaches
an unchecked C++ operation (modulo by zero, vector indexing out of
bounds); configError models an explicit std::runtime_error throw. -/
inductive RGError where
  | configError (msg : String)
  | undefinedBehavior
deriving DecidableEq, Repr

/-- The member state of the RenderGraph class (src/RenderGraph.hpp lines
208-232).  External collaborators held by reference (device, queues,
pool, image views, extent) perform no orchestrator-visible branching and
are omitted; m_swapchainImages is the image vector cached by the
constructor. -/
structure RGState where
  swapchainImages : List Image
  passes : List RenderPassNode
  commandBuffers : List CommandBuffer
  presentCompleteSemaphores : List Semaphore
  renderFinishedSemaphores : List Semaphore
  inFlightFences : List Fence
  imageCount : Nat
  currentFrame : Nat

/-- The RenderGraph constructor (lines 56-73): caches the swapchain
images; all vectors start empty, m_imageCount = 0, m_currentFrame = 0. -/
def mkRenderGraph (images : List Image) : RGState :=
  { swapchainImages := images
    passes := []
    commandBuffers := []
    presentCompleteSemaphores := []
    renderFinishedSemaphores := []
    inFlightFences := []
    imageCount := 0
    currentFrame := 0 }

/-- addPass (lines 76-79): push_back of one descriptor. -/
def addPass (s : RGState) (node : RenderPassNode) : RGState :=
  { s with passes := s.passes ++ [node] }

/-- init (lines 83-113).  Sets m_imageCount from the (uint32_t-cast)
image vector size, throws if it is zero, otherwise appends m_imageCount
newly allocated primary command buffers to m_commandBuffers (which is
NOT cleared), clears and refills the two semaphore vectors with
unsignaled semaphores and the fence vector with pre-signaled fences.
The second component is the thrown message, if any; the first is the
object state afterwards (m_imageCount is assigned before the throw). -/
def init (s : RGState) : RGState × Option String :=
  let n := s.swapchainImages.length % 2 ^ 32
  let s1 := { s with imageCount := n }
  if n = 0 then (s1, some "Swapchain has zero images")
  else
    ({ s1 with
        commandBuffers :=
          s1.commandBuffers ++ List.replicate n { primaryLevel := true }
        presentCompleteSemaphores := List.replicate n { createdSignaled := false }
        renderFinishedSemaphores := List.replicate n { createdSignaled := false }
        inFlightFences := List.replicate n { createdSignaled := true } },
      none)

/-- The barrier executeFrame fills in for a pass whose transition is
requested (lines 145-159): masks and layouts from the pass, queue
families VK_QUEUE_FAMILY_IGNORED, image = m_swapchainImages[imageIndex],
fixed single-mip single-layer color subresource range. -/
def mkBarrier (pass : RenderPassNode) (image : Image) : ImageMemoryBarrier2 :=
  { srcStageMask := pass.srcStageMask
    srcAccessMask := pass.srcAccessMask
    dstStageMask := pass.dstStageMask
    dstAccessMask := pass.dstAccessMask
    oldLayout := pass.oldLayout
    newLayout := pass.newLayout
    srcQueueFamilyIndex := VK_QUEUE_FAMILY_IGNORED
    dstQueueFamilyIndex := VK_QUEUE_FAMILY_IGNORED
    image := image
    subresourceRange :=
      { aspectMask := eColorAspect
        baseMipLevel := 0
        levelCount := 1
        baseArrayLayer := 0
        layerCount := 1 } }

/-- The commands recorded by invoking the record callback of one pass
(line 170-172: if the std::function is non-empty it is called with the
command buffer and the acquired image index). -/
def callbackEvents (slot : Nat) (imageIndex : Nat) (pass : RenderPassNode) :
    List Event :=
  match pass.recordFunc with
  | some f => (f imageIndex).map (Event.userCommand slot)
  | none => []

/-- The barrier step for one pass (lines 143-167): when oldLayout
differs from newLayout, record a pipelineBarrier2 on
m_swapchainImages[imageIndex]; the vector indexing is unchecked, so an
out-of-range acquired index is undefined behavior. -/
def barrierEvents (slot : Nat) (images : List Image) (imageIndex : Nat)
    (pass : RenderPassNode) : Except RGError (List Event) :=
  if pass.oldLayout ≠ pass.newLayout then
    match images[imageIndex]? with
    | some img => .ok [Event.pipelineBarrier2 slot (mkBarrier pass img)]
    | none => .error RGError.undefinedBehavior
  else .ok []

/-- The pass loop of executeFrame (lines 140-173): for each pass in
registration order, the barrier step, then the record callback if
present. -/
def recordPasses (slot : Nat) (images : List Image) (imageIndex : Nat) :
    List RenderPassNode → Except RGError (List Event)
  | [] => .ok []
  | pass :: rest =>
    match barrierEvents slot images imageIndex pass,
        recordPasses slot images imageIndex rest with
    | .ok bs, .ok restEvents =>
        .ok (bs ++ callbackEvents slot imageIndex pass ++ restEvents)
    | .error e, _ => .error e
    | _, .error e => .error e

/-- The frameIndex computation of executeFrame line 122:
m_currentFrame % m_imageCount (modulo by zero when m_imageCount = 0 is
undefined behavior, handled at the call site in executeFrame). -/
def frameIndexOf (s : RGState) : Nat :=
  s.currentFrame % s.imageCount

/-- executeFrame (lines 119-206).  Computes the round-robin frameIndex,
takes (unchecked) references into the four per-frame vectors, then in
order: waits on the slot fence, acquires the next image (the acquired
index is an input from the environment), begins the slot command buffer,
runs the pass loop, ends recording, resets the fence, submits, presents,
and finally increments the uint64_t frame counter.  A zero m_imageCount
(modulo by zero) or an out-of-range vector index is undefined
behavior. -/
def executeFrame (s : RGState) (acquiredImageIndex : Nat) :
    Except RGError (List Event × RGState) :=
  if s.imageCount = 0 then .error RGError.undefinedBehavior
  else if frameIndexOf s < s.inFlightFences.length ∧
      frameIndexOf s < s.presentCompleteSemaphores.length ∧
      frameIndexOf s < s.renderFinishedSemaphores.length ∧
      frameIndexOf s < s.commandBuffers.length then
    match recordPasses (frameIndexOf s) s.swapchainImages acquiredImageIndex
        s.passes with
    | .error e => .error e
    | .ok passEvts =>
        .ok (Event.waitForFences (frameIndexOf s) ::
              Event.acquireNextImage (frameIndexOf s) acquiredImageIndex ::
              Event.beginCommandBuffer (frameIndexOf s) ::
              passEvts ++
              [Event.endCommandBuffer (frameIndexOf s),
                Event.resetFences (frameIndexOf s),
                Event.queueSubmit (frameIndexOf s),
                Event.presentKHR (frameIndexOf s) acquiredImageIndex],
            { s with currentFrame := (s.currentFrame + 1) % 2 ^ 64 })
  else .error RGError.undefinedBehavior

/-- Iterated executeFrame keeping only the final state; acquire n is the
image index the environment returns in the n-th cycle (0-based). -/
def runCycles (acquire : Nat → Nat) (s : RGState) :
    Nat → Except RGError RGState
  | 0 => .ok s
  | m + 1 =>
    match runCycles acquire s m with
    | .ok s' =>
      match executeFrame s' (acquire m) with
      | .ok (_, s'') => .ok s''
      | .error e => .error e
    | .error e => .error e

/-- Iterated executeFrame keeping the trace of every cycle. -/
def runTraces (acquire : Nat → Nat) (s : RGState) :
    Nat → Except RGError (List (List Event) × RGState)
  | 0 => .ok ([], s)
  | m + 1 =>
    match runTraces acquire s m with
    | .ok (trs, s') =>
      match executeFrame s' (acquire m) with
      | .ok (tr, s'') => .ok (trs ++ [tr], s'')
      | .error e => .error e
    | .error e => .error e

/-- Iterated init (first component of the result), used to analyse
calling init more than once. -/
def initIter (s : RGState) : Nat → RGState
  | 0 => s
  | k + 1 => (init (initIter s k)).1

/-- A state whose per-frame vectors are large enough for every
round-robin index: this is what a successful init establishes. -/
def Initialized (s : RGState) : Prop :=
  0 < s.imageCount ∧
  s.imageCount ≤ s.inFlightFences.length ∧
  s.imageCount ≤ s.presentCompleteSemaphores.length ∧
  s.imageCount ≤ s.renderFinishedSemaphores.length ∧
  s.imageCount ≤ s.commandBuffers.length

/-- Spec-level description (section 4.4 step 4 of the specification) of
what one pass contributes to the command stream: its barrier when a
transition is requested, immediately followed by the commands its
callback records.  Used to compare the pass loop of the source against
the specification sentence by sentence. -/
def passContributionSpec (slot : Nat) (img : Image) (imageIndex : Nat)
    (pass : RenderPassNode) : List Event :=
  (if pass.oldLayout ≠ pass.newLayout then
    [Event.pipelineBarrier2 slot (mkBarrier pass img)]
  else []) ++ callbackEvents slot imageIndex pass

/-! Helper lemmas about the embedding, shared by the claim theorems. -/

/-- When the acquired index is in range, the barrier step of one pass
records exactly the spec-described barrier list. -/
theorem barrierEvents_eq_of_get (slot : Nat) (images : List Image)
    (imageIndex : Nat) (img : Image) (pass : RenderPassNode)
    (himg : images[imageIndex]? = some img) :
    barrierEvents slot images imageIndex pass =
      .ok (if pass.oldLayout ≠ pass.newLayout then
        [Event.pipelineBarrier2 slot (mkBarrier pass img)]
      else []) := by
  unfold barrierEvents
  by_cases h : pass.oldLayout = pass.newLayout
  · simp [h]
  · simp [h, himg]

/-- When the acquired index is in range, the pass loop succeeds and its
output is the concatenation, in registration order, of the per-pass
contributions described by the specification. -/
theorem recordPasses_eq_spec (slot : Nat) (images : List Image)
    (imageIndex : Nat) (img : Image)
    (himg : images[imageIndex]? = some img)
    (passes : List RenderPassNode) :
    recordPasses slot images imageIndex passes =
      .ok (passes.flatMap (passContributionSpec slot img imageIndex)) := by
  induction passes with
  | nil => rfl
  | cons pass rest ih =>
      rw [recordPasses, barrierEvents_eq_of_get slot images imageIndex img pass himg,
        ih]
      simp [passContributionSpec]

/-- A successful barrier step only ever emits pipelineBarrier2 events of
its own slot. -/
theorem barrierEvents_shape (slot : Nat) (images : List Image)
    (imageIndex : Nat) (pass : RenderPassNode) (bs : List Event)
    (h : barrierEvents slot images imageIndex pass = .ok bs) :
    ∀ e ∈ bs, ∃ b, e = Event.pipelineBarrier2 slot b := by
  unfold barrierEvents at h
  by_cases hl : pass.oldLayout = pass.newLayout
  · rw [if_neg (not_not_intro hl)] at h
    cases h
    simp
  · rw [if_pos hl] at h
    cases hg : images[imageIndex]? with
    | none => rw [hg] at h; cases h
    | some img =>
        rw [hg] at h
        cases h
        intro e he
        simp at he
        exact ⟨_, he⟩

/-- A successful pass loop emits only recording events (barriers and
callback commands), all on its own slot. -/
theorem recordPasses_shape (slot : Nat) (images : List Image)
    (imageIndex : Nat) (passes : List RenderPassNode) (evts : List Event)
    (h : recordPasses slot images imageIndex passes = .ok evts) :
    ∀ e ∈ evts, (∃ b, e = Event.pipelineBarrier2 slot b) ∨
      ∃ c, e = Event.userCommand slot c := by
  induction passes generalizing evts with
  | nil =>
      rw [recordPasses] at h
      cases h
      simp
  | cons pass rest ih =>
      rw [recordPasses] at h
      cases hb : barrierEvents slot images imageIndex pass with
      | error e =>
          cases hr : recordPasses slot images imageIndex rest with
          | error e2 => rw [hb, hr] at h; cases h
          | ok restEvents => rw [hb, hr] at h; cases h
      | ok bs =>
          cases hr : recordPasses slot images imageIndex rest with
          | error e2 => rw [hb, hr] at h; cases h
          | ok restEvents =>
              rw [hb, hr] at h
              cases h
              intro e he
              rcases List.mem_append.mp he with he1 | he2
              · rcases List.mem_append.mp he1 with hbs | hcb
                · exact Or.inl (barrierEvents_shape slot images imageIndex pass bs hb e hbs)
                · right
                  unfold callbackEvents at hcb
                  cases hf : pass.recordFunc with
                  | none => rw [hf] at hcb; cases hcb
                  | some f =>
                      rw [hf] at hcb
                      rcases List.mem_map.mp hcb with ⟨c, _, hc⟩
                      exact ⟨c, hc.symm⟩
              · exact ih restEvents hr e he2

/-- Eliminator for a successful executeFrame: the image count was
nonzero, the pass loop succeeded, the trace has the fixed cycle shape
around the pass-loop output, and the state change is exactly the
uint64_t frame-counter increment. -/
theorem executeFrame_ok_elim (s : RGState) (idx : Nat) (tr : List Event)
    (s' : RGState) (h : executeFrame s idx = .ok (tr, s')) :
    s.imageCount ≠ 0 ∧
    ∃ passEvts,
      recordPasses (frameIndexOf s) s.swapchainImages idx s.passes =
        .ok passEvts ∧
      tr = Event.waitForFences (frameIndexOf s) ::
            Event.acquireNextImage (frameIndexOf s) idx ::
            Event.beginCommandBuffer (frameIndexOf s) ::
            passEvts ++
            [Event.endCommandBuffer (frameIndexOf s),
              Event.resetFences (frameIndexOf s),
              Event.queueSubmit (frameIndexOf s),
              Event.presentKHR (frameIndexOf s) idx] ∧
      s' = { s with currentFrame := (s.currentFrame + 1) % 2 ^ 64 } := by
  unfold executeFrame at h
  by_cases h0 : s.imageCount = 0
  · rw [if_pos h0] at h
    cases h
  · rw [if_neg h0] at h
    refine ⟨h0, ?_⟩
    by_cases hb : frameIndexOf s < s.inFlightFences.length ∧
        frameIndexOf s < s.presentCompleteSemaphores.length ∧
        frameIndexOf s < s.renderFinishedSemaphores.length ∧
        frameIndexOf s < s.commandBuffers.length
    · rw [if_pos hb] at h
      cases hr : recordPasses (frameIndexOf s) s.swapchainImages idx s.passes with
      | error e => rw [hr] at h; cases h
      | ok passEvts =>
          rw [hr] at h
          cases h
          exact ⟨passEvts, rfl, rfl, rfl⟩
    · rw [if_neg hb] at h
      cases h

/-- Introduction rule for executeFrame on an initialized state with a
successful pass loop. -/
theorem executeFrame_ok_intro (s : RGState) (idx : Nat)
    (passEvts : List Event) (hinit : Initialized s)
    (hrec : recordPasses (frameIndexOf s) s.swapchainImages idx s.passes =
      .ok passEvts) :
    executeFrame s idx =
      .ok (Event.waitForFences (frameIndexOf s) ::
            Event.acquireNextImage (frameIndexOf s) idx ::
            Event.beginCommandBuffer (frameIndexOf s) ::
            passEvts ++
            [Event.endCommandBuffer (frameIndexOf s),
              Event.resetFences (frameIndexOf s),
              Event.queueSubmit (frameIndexOf s),
              Event.presentKHR (frameIndexOf s) idx],
          { s with currentFrame := (s.currentFrame + 1) % 2 ^ 64 }) := by
  obtain ⟨h0, h1, h2, h3, h4⟩ := hinit
  have hfi : frameIndexOf s < s.imageCount := Nat.mod_lt _ h0
  unfold executeFrame
  rw [if_neg (Nat.pos_iff_ne_zero.mp h0), if_pos
    ⟨lt_of_lt_of_le hfi h1, lt_of_lt_of_le hfi h2,
      lt_of_lt_of_le hfi h3, lt_of_lt_of_le hfi h4⟩, hrec]

/-- The empty pass list records nothing, for any slot and any acquired
index. -/
theorem recordPasses_nil (slot : Nat) (images : List Image)
    (imageIndex : Nat) : recordPasses slot images imageIndex [] = .ok [] := rfl

/-- Replacing only the frame counter preserves the Initialized
invariant. -/
theorem initialized_update (s : RGState) (x : Nat) :
    Initialized { s with currentFrame := x } ↔ Initialized s := Iff.rfl

/-- The pass loop succeeds whenever the acquired index is in range. -/
theorem recordPasses_ok_of_lt (slot : Nat) (images : List Image)
    (imageIndex : Nat) (passes : List RenderPassNode)
    (h : imageIndex < images.length) :
    ∃ evts, recordPasses slot images imageIndex passes = .ok evts := by
  obtain ⟨img, himg⟩ : ∃ img, images[imageIndex]? = some img :=
    ⟨images[imageIndex], List.getElem?_eq_getElem h⟩
  exact ⟨_, recordPasses_eq_spec slot images imageIndex img himg passes⟩

/-- On an initialized state whose acquired indices stay in range (or
whose pass list is empty), m cycles succeed and the final state differs
from the initial one only in the frame counter, which advances by m
modulo 2 ^ 64. -/
theorem runCycles_ok (acquire : Nat → Nat) (s : RGState)
    (hinit : Initialized s)
    (hacq : ∀ n, acquire n < s.swapchainImages.length ∨ s.passes = [])
    (hcf : s.currentFrame < 2 ^ 64) :
    ∀ m, runCycles acquire s m =
      .ok { s with currentFrame := (s.currentFrame + m) % 2 ^ 64 } := by
  intro m
  induction m with
  | zero =>
      rw [runCycles]
      have h0 : (s.currentFrame + 0) % 2 ^ 64 = s.currentFrame := by
        simpa using Nat.mod_eq_of_lt hcf
      rw [h0]
  | succ m ih =>
      have hinitm : Initialized
          { s with currentFrame := (s.currentFrame + m) % 2 ^ 64 } := hinit
      obtain ⟨evts, hrec⟩ : ∃ evts,
          recordPasses
            (frameIndexOf { s with currentFrame := (s.currentFrame + m) % 2 ^ 64 })
            s.swapchainImages (acquire m) s.passes = .ok evts := by
        rcases hacq m with h | h
        · exact recordPasses_ok_of_lt _ _ _ _ h
        · rw [h]; exact ⟨[], recordPasses_nil _ _ _⟩
      simp only [runCycles, ih]
      rw [executeFrame_ok_intro _ _ _ hinitm hrec]
      simp [Nat.mod_add_mod, Nat.add_assoc]

/-- On an initialized state with an empty pass list, every cycle of a
run of any length succeeds and produces the bare seven-event
acquire/record/submit/present trace. -/
theorem runTraces_empty_passes (acquire : Nat → Nat) (s : RGState)
    (hinit : Initialized s) (hp : s.passes = []) :
    ∀ N, ∃ trs sFinal,
      runTraces acquire s N = .ok (trs, sFinal) ∧
      trs.length = N ∧ sFinal.passes = [] ∧ Initialized sFinal ∧
      ∀ tr ∈ trs, ∃ slot i, tr =
        [Event.waitForFences slot, Event.acquireNextImage slot i,
          Event.beginCommandBuffer slot, Event.endCommandBuffer slot,
          Event.resetFences slot, Event.queueSubmit slot,
          Event.presentKHR slot i] := by
  intro N
  induction N with
  | zero => exact ⟨[], s, rfl, rfl, hp, hinit, by simp⟩
  | succ N ih =>
      obtain ⟨trs, sF, hrun, hlen, hpF, hinitF, htrs⟩ := ih
      have hrec : recordPasses (frameIndexOf sF) sF.swapchainImages
          (acquire N) sF.passes = .ok [] := by
        rw [hpF]; exact recordPasses_nil _ _ _
      refine ⟨trs ++ [[Event.waitForFences (frameIndexOf sF),
        Event.acquireNextImage (frameIndexOf sF) (acquire N),
        Event.beginCommandBuffer (frameIndexOf sF),
        Event.endCommandBuffer (frameIndexOf sF),
        Event.resetFences (frameIndexOf sF),
        Event.queueSubmit (frameIndexOf sF),
        Event.presentKHR (frameIndexOf sF) (acquire N)]],
        { sF with currentFrame := (sF.currentFrame + 1) % 2 ^ 64 }, ?_, ?_, hpF,
        hinitF, ?_⟩
      · simp only [runTraces, hrun]
        rw [executeFrame_ok_intro _ _ _ hinitF hrec]
        simp
      · simp [hlen]
      · intro tr htr
        rcases List.mem_append.mp htr with h | h
        · exact htrs tr h
        · rcases List.mem_singleton.mp h with rfl
          exact ⟨frameIndexOf sF, acquire N, rfl⟩

/-- A concrete render graph over three swapchain images with no passes,
directly after construction plus init. -/
def cState : RGState := (init (mkRenderGraph [10, 11, 12])).1

/-- cState satisfies the initialization invariant. -/
theorem cState_initialized : Initialized cState :=
  ⟨by decide, by decide, by decide, by decide, by decide⟩

/-- The trace of the first cycle of cState when the environment hands
out image index 1. -/
def cTrace1 : List Event :=
  [Event.waitForFences 0, Event.acquireNextImage 0 1,
    Event.beginCommandBuffer 0, Event.endCommandBuffer 0,
    Event.resetFences 0, Event.queueSubmit 0, Event.presentKHR 0 1]

/-- cState after its first cycle. -/
def cState1 : RGState := { cState with currentFrame := 1 }

/-- A concrete pass with a transition Undefined (0) to
ColorAttachmentOptimal (2) and a callback recording one command. -/
def passMain : RenderPassNode :=
  { name := "MainPass"
    recordFunc := some fun _ => [7]
    oldLayout := 0
    newLayout := 2
    srcAccessMask := 0
    dstAccessMask := 128
    srcStageMask := 1
    dstStageMask := 1024 }

/-- A two-image render graph carrying passMain, after init. -/
def pState : RGState := (init (addPass (mkRenderGraph [20, 21]) passMain)).1

/-- The trace of the first cycle of pState when the environment hands
out image index 1 (distinct from the slot index 0). -/
def pTrace : List Event :=
  [Event.waitForFences 0, Event.acquireNextImage 0 1,
    Event.beginCommandBuffer 0,
    Event.pipelineBarrier2 0 (mkBarrier passMain 21),
    Event.userCommand 0 7,
    Event.endCommandBuffer 0, Event.resetFences 0, Event.queueSubmit 0,
    Event.presentKHR 0 1]

/-- A one-image initialized render graph whose uint64_t frame counter
sits at its maximum value. -/
def wrapState : RGState :=
  { (init (mkRenderGraph [7])).1 with currentFrame := 2 ^ 64 - 1 }

/-- The trace of the cycle executed from wrapState with image index 0. -/
def wrapTrace : List Event :=
  [Event.waitForFences 0, Event.acquireNextImage 0 0,
    Event.beginCommandBuffer 0, Event.endCommandBuffer 0,
    Event.resetFences 0, Event.queueSubmit 0, Event.presentKHR 0 0]

/-! Claim theorems. -/

/-- Claim C1: every successful execution cycle performs, in this strict
sequential order, the wait on the fence of the selected slot, the
acquire of the next presentable image, the begin of recording into the
slot command buffer, the recording of the passes (only barrier and
callback commands appear there), the end of recording, the fence reset,
the submit, the present, and then increments the frame counter; in
particular recording into the slot begins only after the wait on the
fence of that slot. -/
theorem cycle_strict_order (s : RGState) (idx : Nat) (tr : List Event)
    (s' : RGState) (h : executeFrame s idx = .ok (tr, s')) :
    ∃ passEvts,
      recordPasses (frameIndexOf s) s.swapchainImages idx s.passes =
        .ok passEvts ∧
      (∀ e ∈ passEvts,
        (∃ b, e = Event.pipelineBarrier2 (frameIndexOf s) b) ∨
          ∃ c, e = Event.userCommand (frameIndexOf s) c) ∧
      tr = Event.waitForFences (frameIndexOf s) ::
            Event.acquireNextImage (frameIndexOf s) idx ::
            Event.beginCommandBuffer (frameIndexOf s) ::
            passEvts ++
            [Event.endCommandBuffer (frameIndexOf s),
              Event.resetFences (frameIndexOf s),
              Event.queueSubmit (frameIndexOf s),
              Event.presentKHR (frameIndexOf s) idx] ∧
      s'.currentFrame = (s.currentFrame + 1) % 2 ^ 64 := by
  obtain ⟨h0, passEvts, hrec, htr, hs⟩ := executeFrame_ok_elim s idx tr s' h
  exact ⟨passEvts, hrec, recordPasses_shape _ _ _ _ _ hrec, htr, by rw [hs]⟩

/-- Witness for C1 on the concrete three-image graph cState with
acquired image index 1. -/
theorem cycle_strict_order_witness :
    ∃ passEvts,
      recordPasses (frameIndexOf cState) cState.swapchainImages 1
        cState.passes = .ok passEvts ∧
      (∀ e ∈ passEvts,
        (∃ b, e = Event.pipelineBarrier2 (frameIndexOf cState) b) ∨
          ∃ c, e = Event.userCommand (frameIndexOf cState) c) ∧
      cTrace1 = Event.waitForFences (frameIndexOf cState) ::
            Event.acquireNextImage (frameIndexOf cState) 1 ::
            Event.beginCommandBuffer (frameIndexOf cState) ::
            passEvts ++
            [Event.endCommandBuffer (frameIndexOf cState),
              Event.resetFences (frameIndexOf cState),
              Event.queueSubmit (frameIndexOf cState),
              Event.presentKHR (frameIndexOf cState) 1] ∧
      cState1.currentFrame = (cState.currentFrame + 1) % 2 ^ 64 :=
  cycle_strict_order cState 1 cTrace1 cState1 rfl

/-- Claim C5 counterexample: invoking the cycle on a constructed but
uninitialized graph (imageCount = 0) does not fail through any explicit
precondition check; the run reaches the unguarded modulo by zero and
unchecked vector indexing of line 122, i.e. undefined behavior, and in
particular produces no configuration error. -/
theorem cycle_unguarded_counterexample :
    executeFrame (mkRenderGraph [3, 4]) 0 = .error RGError.undefinedBehavior ∧
    executeFrame (mkRenderGraph [3, 4]) 0 ≠
      .error (RGError.configError "Swapchain has zero images") := by
  refine ⟨rfl, ?_⟩
  rw [show executeFrame (mkRenderGraph [3, 4]) 0 =
    .error RGError.undefinedBehavior from rfl]
  simp

/-- Claim C5 (amended): executeFrame has no precondition check at all:
invoked before initialization (zero slots) it performs the modulo by
zero and unchecked indexing of line 122, which is undefined behavior,
rather than failing through an explicit guard; the only explicit
zero-image guard in the class is the throw inside init. -/
theorem cycle_before_init_undefined (s : RGState) (idx : Nat)
    (h : s.imageCount = 0) :
    executeFrame s idx = .error RGError.undefinedBehavior ∧
    (init s).2 = (if s.swapchainImages.length % 2 ^ 32 = 0 then
      some "Swapchain has zero images" else none) := by
  constructor
  · unfold executeFrame
    rw [if_pos h]
  · simp only [init]
    by_cases h0 : s.swapchainImages.length % 2 ^ 32 = 0
    · rw [if_pos h0, if_pos h0]
    · rw [if_neg h0, if_neg h0]

/-- Witness for the amended C5 on a constructed, never initialized
two-image graph. -/
theorem cycle_before_init_undefined_witness :
    executeFrame (mkRenderGraph [3, 4]) 5 = .error RGError.undefinedBehavior ∧
    (init (mkRenderGraph [3, 4])).2 =
      (if (mkRenderGraph [3, 4]).swapchainImages.length % 2 ^ 32 = 0 then
        some "Swapchain has zero images" else none) :=
  cycle_before_init_undefined (mkRenderGraph [3, 4]) 5 rfl

/-- Claim C9 (amended): a successful cycle leaves the pass list, the
cached swapchain-image array, the image count, the command-buffer
vector, both semaphore vectors and the fence vector unchanged; the only
member the cycle writes is the frame counter, which becomes its old
value plus one reduced modulo 2 ^ 64 (exactly plus one except at the
uint64_t wrap). -/
theorem cycle_state_effect (s : RGState) (idx : Nat) (tr : List Event)
    (s' : RGState) (h : executeFrame s idx = .ok (tr, s')) :
    s'.passes = s.passes ∧
    s'.swapchainImages = s.swapchainImages ∧
    s'.imageCount = s.imageCount ∧
    s'.commandBuffers = s.commandBuffers ∧
    s'.presentCompleteSemaphores = s.presentCompleteSemaphores ∧
    s'.renderFinishedSemaphores = s.renderFinishedSemaphores ∧
    s'.inFlightFences = s.inFlightFences ∧
    s'.currentFrame = (s.currentFrame + 1) % 2 ^ 64 := by
  obtain ⟨-, passEvts, -, -, hs⟩ := executeFrame_ok_elim s idx tr s' h
  subst hs
  exact ⟨rfl, rfl, rfl, rfl, rfl, rfl, rfl, rfl⟩

/-- Witness for the amended C9 on cState with acquired index 2. -/
theorem cycle_state_effect_witness :
    ({ cState with currentFrame := 1 } : RGState).passes = cState.passes ∧
    ({ cState with currentFrame := 1 } : RGState).swapchainImages =
      cState.swapchainImages ∧
    ({ cState with currentFrame := 1 } : RGState).imageCount =
      cState.imageCount ∧
    ({ cState with currentFrame := 1 } : RGState).commandBuffers =
      cState.commandBuffers ∧
    ({ cState with currentFrame := 1 } : RGState).presentCompleteSemaphores =
      cState.presentCompleteSemaphores ∧
    ({ cState with currentFrame := 1 } : RGState).renderFinishedSemaphores =
      cState.renderFinishedSemaphores ∧
    ({ cState with currentFrame := 1 } : RGState).inFlightFences =
      cState.inFlightFences ∧
    ({ cState with currentFrame := 1 } : RGState).currentFrame =
      (cState.currentFrame + 1) % 2 ^ 64 :=
  cycle_state_effect cState 2
    [Event.waitForFences 0, Event.acquireNextImage 0 2,
      Event.beginCommandBuffer 0, Event.endCommandBuffer 0,
      Event.resetFences 0, Event.queueSubmit 0, Event.presentKHR 0 2]
    { cState with currentFrame := 1 } rfl

/-- Claim C2 (amended): after initialization (frame counter 0), the
k-th invocation of the cycle selects slot ((k - 1) mod 2 ^ 64) mod
slotCount, because the frame counter is a uint64_t and wraps; each cycle
sets the counter to (old + 1) mod 2 ^ 64.  The originally claimed slot
(k - 1) mod slotCount is selected whenever k ≤ 2 ^ 64, and the counter
increments by exactly one whenever k < 2 ^ 64. -/
theorem roundRobin_slot_selection (s : RGState) (acquire : Nat → Nat)
    (k : Nat) (hinit : Initialized s) (hcf : s.currentFrame = 0)
    (hacq : ∀ n, acquire n < s.swapchainImages.length ∨ s.passes = [])
    (hk : 1 ≤ k) :
    ∃ sPrev tr sNext,
      runCycles acquire s (k - 1) = .ok sPrev ∧
      executeFrame sPrev (acquire (k - 1)) = .ok (tr, sNext) ∧
      frameIndexOf sPrev = ((k - 1) % 2 ^ 64) % s.imageCount ∧
      tr.head? = some
        (Event.waitForFences (((k - 1) % 2 ^ 64) % s.imageCount)) ∧
      sNext.currentFrame = ((k - 1) % 2 ^ 64 + 1) % 2 ^ 64 ∧
      (k ≤ 2 ^ 64 → frameIndexOf sPrev = (k - 1) % s.imageCount) ∧
      (k < 2 ^ 64 → sNext.currentFrame = sPrev.currentFrame + 1) := by
  have hcf64 : s.currentFrame < 2 ^ 64 := by rw [hcf]; norm_num
  have h1 := runCycles_ok acquire s hinit hacq hcf64 (k - 1)
  rw [hcf, Nat.zero_add] at h1
  obtain ⟨evts, hrec⟩ : ∃ evts,
      recordPasses (frameIndexOf { s with currentFrame := (k - 1) % 2 ^ 64 })
        s.swapchainImages (acquire (k - 1)) s.passes = .ok evts := by
    rcases hacq (k - 1) with h | h
    · exact recordPasses_ok_of_lt _ _ _ _ h
    · rw [h]; exact ⟨[], recordPasses_nil _ _ _⟩
  have h2 := executeFrame_ok_intro
    { s with currentFrame := (k - 1) % 2 ^ 64 } (acquire (k - 1)) evts hinit
    hrec
  have hsub : k - 1 < k := Nat.sub_lt hk Nat.one_pos
  refine ⟨_, _, _, h1, h2, rfl, rfl, rfl, ?_, ?_⟩
  · intro hk64
    show ((k - 1) % 2 ^ 64) % s.imageCount = (k - 1) % s.imageCount
    rw [Nat.mod_eq_of_lt (lt_of_lt_of_le hsub hk64)]
  · intro hk64
    show ((k - 1) % 2 ^ 64 + 1) % 2 ^ 64 = (k - 1) % 2 ^ 64 + 1
    rw [Nat.mod_eq_of_lt (lt_trans hsub hk64), Nat.sub_add_cancel hk]
    exact Nat.mod_eq_of_lt hk64

/-- Witness for the amended C2 on cState with k = 5. -/
theorem roundRobin_slot_selection_witness :
    ∃ sPrev tr sNext,
      runCycles (fun _ => 0) cState 4 = .ok sPrev ∧
      executeFrame sPrev 0 = .ok (tr, sNext) ∧
      frameIndexOf sPrev = (4 % 2 ^ 64) % cState.imageCount ∧
      tr.head? = some
        (Event.waitForFences ((4 % 2 ^ 64) % cState.imageCount)) ∧
      sNext.currentFrame = (4 % 2 ^ 64 + 1) % 2 ^ 64 ∧
      (5 ≤ 2 ^ 64 → frameIndexOf sPrev = 4 % cState.imageCount) ∧
      (5 < 2 ^ 64 → sNext.currentFrame = sPrev.currentFrame + 1) :=
  roundRobin_slot_selection cState (fun _ => 0) 5 cState_initialized rfl
    (fun _ => Or.inl (show (0 : Nat) < cState.swapchainImages.length by decide))
    (by norm_num)

/-- Claim C2 counterexample: on a three-slot graph, the claimed
round-robin law fails at the invocation k = 2 ^ 64 + 1.  After
2 ^ 64 cycles the wrapped uint64_t counter is back at 0, so that
invocation selects slot 0, while the claim demands slot
(k - 1) mod 3 = 2 ^ 64 mod 3 = 1. -/
theorem roundRobin_wrap_counterexample :
    runCycles (fun _ => 0) cState (2 ^ 64) = .ok cState ∧
    cState.imageCount = 3 ∧ frameIndexOf cState = 0 ∧
    (2 ^ 64 + 1 - 1) % 3 = 1 := by
  refine ⟨?_, rfl, rfl, by norm_num⟩
  have h := runCycles_ok (fun _ => 0) cState cState_initialized
    (fun _ => Or.inl (show (0 : Nat) < cState.swapchainImages.length by decide))
    (by decide) (2 ^ 64)
  have e : (cState.currentFrame + 2 ^ 64) % 2 ^ 64 = 0 := by
    rw [show cState.currentFrame = 0 from rfl]
    norm_num
  rw [h, e]
  rfl

/-- Claim C3: the pass loop of a successful cycle processes the
registered passes in registration order, each contributing its events
between the begin and end of recording; a pass contributes a
layout-transition barrier immediately before its callback commands if
and only if its oldLayout differs from its newLayout; a pass with equal
layouts contributes no barrier at all; a pass with no callback but a
requested transition contributes exactly its barrier and nothing else. -/
theorem passes_in_order_barrier_iff (s : RGState) (idx : Nat) (img : Image)
    (tr : List Event) (s' : RGState)
    (himg : s.swapchainImages[idx]? = some img)
    (h : executeFrame s idx = .ok (tr, s')) :
    tr = Event.waitForFences (frameIndexOf s) ::
          Event.acquireNextImage (frameIndexOf s) idx ::
          Event.beginCommandBuffer (frameIndexOf s) ::
          s.passes.flatMap (passContributionSpec (frameIndexOf s) img idx) ++
          [Event.endCommandBuffer (frameIndexOf s),
            Event.resetFences (frameIndexOf s),
            Event.queueSubmit (frameIndexOf s),
            Event.presentKHR (frameIndexOf s) idx] ∧
    (∀ pass : RenderPassNode, pass.oldLayout ≠ pass.newLayout →
      passContributionSpec (frameIndexOf s) img idx pass =
        Event.pipelineBarrier2 (frameIndexOf s) (mkBarrier pass img) ::
          callbackEvents (frameIndexOf s) idx pass) ∧
    (∀ pass : RenderPassNode, pass.oldLayout = pass.newLayout →
      passContributionSpec (frameIndexOf s) img idx pass =
        callbackEvents (frameIndexOf s) idx pass ∧
      ∀ sl b, Event.pipelineBarrier2 sl b ∉
        passContributionSpec (frameIndexOf s) img idx pass) ∧
    (∀ pass : RenderPassNode, pass.recordFunc = none →
      pass.oldLayout ≠ pass.newLayout →
      passContributionSpec (frameIndexOf s) img idx pass =
        [Event.pipelineBarrier2 (frameIndexOf s) (mkBarrier pass img)]) := by
  obtain ⟨h0, passEvts, hrec, htr, hs⟩ := executeFrame_ok_elim s idx tr s' h
  rw [recordPasses_eq_spec _ _ _ img himg] at hrec
  cases hrec
  refine ⟨htr, ?_, ?_, ?_⟩
  · intro pass hne
    simp [passContributionSpec, hne]
  · intro pass heq
    constructor
    · simp [passContributionSpec, heq]
    · intro sl b
      rw [passContributionSpec, if_neg (not_not_intro heq), List.nil_append,
        callbackEvents]
      cases hf : pass.recordFunc with
      | none => simp
      | some f => simp
  · intro pass hnone hne
    rw [passContributionSpec, if_pos hne, callbackEvents, hnone,
      List.append_nil]

/-- Witness for C3 on the two-image graph pState carrying the
transition-plus-callback pass passMain, with acquired image index 1. -/
theorem passes_in_order_barrier_iff_witness :
    pTrace = Event.waitForFences (frameIndexOf pState) ::
          Event.acquireNextImage (frameIndexOf pState) 1 ::
          Event.beginCommandBuffer (frameIndexOf pState) ::
          pState.passes.flatMap
            (passContributionSpec (frameIndexOf pState) 21 1) ++
          [Event.endCommandBuffer (frameIndexOf pState),
            Event.resetFences (frameIndexOf pState),
            Event.queueSubmit (frameIndexOf pState),
            Event.presentKHR (frameIndexOf pState) 1] ∧
    (∀ pass : RenderPassNode, pass.oldLayout ≠ pass.newLayout →
      passContributionSpec (frameIndexOf pState) 21 1 pass =
        Event.pipelineBarrier2 (frameIndexOf pState) (mkBarrier pass 21) ::
          callbackEvents (frameIndexOf pState) 1 pass) ∧
    (∀ pass : RenderPassNode, pass.oldLayout = pass.newLayout →
      passContributionSpec (frameIndexOf pState) 21 1 pass =
        callbackEvents (frameIndexOf pState) 1 pass ∧
      ∀ sl b, Event.pipelineBarrier2 sl b ∉
        passContributionSpec (frameIndexOf pState) 21 1 pass) ∧
    (∀ pass : RenderPassNode, pass.recordFunc = none →
      pass.oldLayout ≠ pass.newLayout →
      passContributionSpec (frameIndexOf pState) 21 1 pass =
        [Event.pipelineBarrier2 (frameIndexOf pState) (mkBarrier pass 21)]) :=
  passes_in_order_barrier_iff pState 1 21 pTrace
    { pState with currentFrame := 1 } rfl rfl

/-- Claim C7: every barrier recorded during a successful cycle targets
the acquired presentable image m_swapchainImages[imageIndex] (selected
by the acquired image index, not by the slot index), transitions exactly
the oldLayout of its pass to the newLayout of that pass with the source
and destination access and stage masks of that pass, and leaves
queue-family ownership unchanged (both indices VK_QUEUE_FAMILY_IGNORED). -/
theorem barrier_targets_acquired_image (s : RGState) (idx : Nat)
    (img : Image) (tr : List Event) (s' : RGState) (sl : Nat)
    (b : ImageMemoryBarrier2)
    (himg : s.swapchainImages[idx]? = some img)
    (h : executeFrame s idx = .ok (tr, s'))
    (hb : Event.pipelineBarrier2 sl b ∈ tr) :
    ∃ pass, pass ∈ s.passes ∧ pass.oldLayout ≠ pass.newLayout ∧
      sl = frameIndexOf s ∧ b = mkBarrier pass img ∧ b.image = img ∧
      b.oldLayout = pass.oldLayout ∧ b.newLayout = pass.newLayout ∧
      b.srcAccessMask = pass.srcAccessMask ∧
      b.dstAccessMask = pass.dstAccessMask ∧
      b.srcStageMask = pass.srcStageMask ∧
      b.dstStageMask = pass.dstStageMask ∧
      b.srcQueueFamilyIndex = VK_QUEUE_FAMILY_IGNORED ∧
      b.dstQueueFamilyIndex = VK_QUEUE_FAMILY_IGNORED := by
  obtain ⟨h0, passEvts, hrec, htr, hs⟩ := executeFrame_ok_elim s idx tr s' h
  rw [recordPasses_eq_spec _ _ _ img himg] at hrec
  cases hrec
  subst htr
  rcases List.mem_cons.mp hb with h1 | hb
  · exact Event.noConfusion h1
  rcases List.mem_cons.mp hb with h1 | hb
  · exact Event.noConfusion h1
  rcases List.mem_cons.mp hb with h1 | hb
  · exact Event.noConfusion h1
  rcases List.mem_append.mp hb with hb2 | h4
  · rcases List.mem_flatMap.mp hb2 with ⟨pass, hpass, hmem⟩
    rw [passContributionSpec] at hmem
    rcases List.mem_append.mp hmem with hm | hm
    · by_cases hl : pass.oldLayout = pass.newLayout
      · rw [if_neg (not_not_intro hl)] at hm
        cases hm
      · rw [if_pos hl] at hm
        have hmeq := List.mem_singleton.mp hm
        injection hmeq with e1 e2
        subst e1
        subst e2
        exact ⟨pass, hpass, hl, rfl, rfl, rfl, rfl, rfl, rfl, rfl, rfl,
          rfl, rfl, rfl⟩
    · exfalso
      rw [callbackEvents] at hm
      cases hf : pass.recordFunc with
      | none => rw [hf] at hm; cases hm
      | some f =>
          rw [hf] at hm
          rcases List.mem_map.mp hm with ⟨c, -, hc⟩
          exact Event.noConfusion hc
  · rcases List.mem_cons.mp h4 with h1 | h4
    · exact Event.noConfusion h1
    rcases List.mem_cons.mp h4 with h1 | h4
    · exact Event.noConfusion h1
    rcases List.mem_cons.mp h4 with h1 | h4
    · exact Event.noConfusion h1
    rcases List.mem_cons.mp h4 with h1 | h4
    · exact Event.noConfusion h1
    exact absurd h4 (List.not_mem_nil _)

/-- Witness for C7 on pState: the single barrier of the first cycle
with acquired index 1. -/
theorem barrier_targets_acquired_image_witness :
    ∃ pass, pass ∈ pState.passes ∧ pass.oldLayout ≠ pass.newLayout ∧
      0 = frameIndexOf pState ∧
      mkBarrier passMain 21 = mkBarrier pass 21 ∧
      (mkBarrier passMain 21).image = 21 ∧
      (mkBarrier passMain 21).oldLayout = pass.oldLayout ∧
      (mkBarrier passMain 21).newLayout = pass.newLayout ∧
      (mkBarrier passMain 21).srcAccessMask = pass.srcAccessMask ∧
      (mkBarrier passMain 21).dstAccessMask = pass.dstAccessMask ∧
      (mkBarrier passMain 21).srcStageMask = pass.srcStageMask ∧
      (mkBarrier passMain 21).dstStageMask = pass.dstStageMask ∧
      (mkBarrier passMain 21).srcQueueFamilyIndex = VK_QUEUE_FAMILY_IGNORED ∧
      (mkBarrier passMain 21).dstQueueFamilyIndex = VK_QUEUE_FAMILY_IGNORED :=
  barrier_targets_acquired_image pState 1 21 pTrace
    { pState with currentFrame := 1 } 0 (mkBarrier passMain 21) rfl rfl
    (by rw [pTrace]; exact List.mem_cons_of_mem _ (List.mem_cons_of_mem _
      (List.mem_cons_of_mem _ (List.mem_cons_self _ _))))

/-- Claim C9 counterexample: at the uint64_t wrap point the frame
counter is not incremented by exactly one; the cycle from the counter
value 2 ^ 64 - 1 succeeds and drops the counter to 0. -/
theorem frameCounter_wrap_counterexample :
    executeFrame wrapState 0 =
      .ok (wrapTrace, { wrapState with currentFrame := 0 }) ∧
    wrapState.currentFrame = 2 ^ 64 - 1 ∧
    ({ wrapState with currentFrame := 0 } : RGState).currentFrame ≠
      wrapState.currentFrame + 1 := by
  refine ⟨rfl, rfl, ?_⟩
  show (0 : Nat) ≠ 2 ^ 64 - 1 + 1
  norm_num

/-- Claim C4: for every image list with at least one element (and a size
representable in uint32_t, as the Vulkan swapchain API guarantees), init
on a freshly constructed graph succeeds and creates exactly one
pre-signaled fence, one initially-unsignaled presentation-ready
semaphore, one initially-unsignaled render-complete semaphore and one
command buffer per swapchain image. -/
theorem init_allocates_slot_resources (images : List Image)
    (h1 : 1 ≤ images.length) (h2 : images.length < 2 ^ 32) :
    (init (mkRenderGraph images)).2 = none ∧
    (init (mkRenderGraph images)).1.inFlightFences.length = images.length ∧
    (∀ f ∈ (init (mkRenderGraph images)).1.inFlightFences,
      f.createdSignaled = true) ∧
    (init (mkRenderGraph images)).1.presentCompleteSemaphores.length =
      images.length ∧
    (∀ sem ∈ (init (mkRenderGraph images)).1.presentCompleteSemaphores,
      sem.createdSignaled = false) ∧
    (init (mkRenderGraph images)).1.renderFinishedSemaphores.length =
      images.length ∧
    (∀ sem ∈ (init (mkRenderGraph images)).1.renderFinishedSemaphores,
      sem.createdSignaled = false) ∧
    (init (mkRenderGraph images)).1.commandBuffers.length = images.length := by
  have hn : images.length % 2 ^ 32 = images.length := Nat.mod_eq_of_lt h2
  have hne : images.length ≠ 0 := by omega
  simp only [init, mkRenderGraph]
  rw [hn, if_neg hne]
  simp [List.mem_replicate]

/-- Witness for C4 on a concrete two-image swapchain. -/
theorem init_allocates_slot_resources_witness :
    (init (mkRenderGraph [5, 6])).2 = none ∧
    (init (mkRenderGraph [5, 6])).1.inFlightFences.length =
      ([5, 6] : List Image).length ∧
    (∀ f ∈ (init (mkRenderGraph [5, 6])).1.inFlightFences,
      f.createdSignaled = true) ∧
    (init (mkRenderGraph [5, 6])).1.presentCompleteSemaphores.length =
      ([5, 6] : List Image).length ∧
    (∀ sem ∈ (init (mkRenderGraph [5, 6])).1.presentCompleteSemaphores,
      sem.createdSignaled = false) ∧
    (init (mkRenderGraph [5, 6])).1.renderFinishedSemaphores.length =
      ([5, 6] : List Image).length ∧
    (∀ sem ∈ (init (mkRenderGraph [5, 6])).1.renderFinishedSemaphores,
      sem.createdSignaled = false) ∧
    (init (mkRenderGraph [5, 6])).1.commandBuffers.length =
      ([5, 6] : List Image).length :=
  init_allocates_slot_resources [5, 6] (by norm_num) (by norm_num)

/-- Claim C6: under the uint32_t representability of the image count
(guaranteed by the Vulkan API), init reports the configuration error
exactly when the cached swapchain-image vector is empty, and in that
case it returns before allocating anything: the command-buffer,
semaphore and fence vectors are all left untouched. -/
theorem init_config_error_iff (s : RGState)
    (h32 : s.swapchainImages.length < 2 ^ 32) :
    ((init s).2 = some "Swapchain has zero images" ↔
      s.swapchainImages.length = 0) ∧
    (s.swapchainImages.length = 0 →
      (init s).1.commandBuffers = s.commandBuffers ∧
      (init s).1.presentCompleteSemaphores = s.presentCompleteSemaphores ∧
      (init s).1.renderFinishedSemaphores = s.renderFinishedSemaphores ∧
      (init s).1.inFlightFences = s.inFlightFences) := by
  have hn : s.swapchainImages.length % 2 ^ 32 = s.swapchainImages.length :=
    Nat.mod_eq_of_lt h32
  refine ⟨⟨?_, ?_⟩, ?_⟩
  · intro he
    by_contra hne
    simp only [init] at he
    rw [hn, if_neg hne] at he
    exact Option.noConfusion he
  · intro h0
    simp only [init]
    rw [hn, if_pos h0]
  · intro h0
    simp only [init]
    rw [hn, if_pos h0]
    exact ⟨rfl, rfl, rfl, rfl⟩

/-- Witness for C6 on a constructed graph with an empty swapchain. -/
theorem init_config_error_iff_witness :
    ((init (mkRenderGraph [])).2 = some "Swapchain has zero images" ↔
      (mkRenderGraph []).swapchainImages.length = 0) ∧
    ((mkRenderGraph []).swapchainImages.length = 0 →
      (init (mkRenderGraph [])).1.commandBuffers =
        (mkRenderGraph []).commandBuffers ∧
      (init (mkRenderGraph [])).1.presentCompleteSemaphores =
        (mkRenderGraph []).presentCompleteSemaphores ∧
      (init (mkRenderGraph [])).1.renderFinishedSemaphores =
        (mkRenderGraph []).renderFinishedSemaphores ∧
      (init (mkRenderGraph [])).1.inFlightFences =
        (mkRenderGraph []).inFlightFences) :=
  init_config_error_iff (mkRenderGraph []) (by decide)

/-- Claim C8: for every N, running N cycles on an initialized graph
whose pass list is empty succeeds; every one of the N cycles still
completes the full wait/acquire/record/submit/present sequence, and its
trace contains zero barriers and zero recorded draw commands. -/
theorem empty_pass_list_cycles (s : RGState) (acquire : Nat → Nat)
    (N : Nat) (hinit : Initialized s) (hp : s.passes = []) :
    ∃ trs sFinal,
      runTraces acquire s N = .ok (trs, sFinal) ∧
      trs.length = N ∧
      ∀ tr ∈ trs,
        (∃ slot i, tr =
          [Event.waitForFences slot, Event.acquireNextImage slot i,
            Event.beginCommandBuffer slot, Event.endCommandBuffer slot,
            Event.resetFences slot, Event.queueSubmit slot,
            Event.presentKHR slot i]) ∧
        (∀ sl b, Event.pipelineBarrier2 sl b ∉ tr) ∧
        (∀ sl c, Event.userCommand sl c ∉ tr) := by
  obtain ⟨trs, sF, hrun, hlen, -, -, htrs⟩ :=
    runTraces_empty_passes acquire s hinit hp N
  refine ⟨trs, sF, hrun, hlen, ?_⟩
  intro tr htr
  obtain ⟨slot, i, rfl⟩ := htrs tr htr
  exact ⟨⟨slot, i, rfl⟩, fun sl b => by simp, fun sl c => by simp⟩

/-- Witness for C8: two cycles on the pass-free graph cState. -/
theorem empty_pass_list_cycles_witness :
    ∃ trs sFinal,
      runTraces (fun n => n) cState 2 = .ok (trs, sFinal) ∧
      trs.length = 2 ∧
      ∀ tr ∈ trs,
        (∃ slot i, tr =
          [Event.waitForFences slot, Event.acquireNextImage slot i,
            Event.beginCommandBuffer slot, Event.endCommandBuffer slot,
            Event.resetFences slot, Event.queueSubmit slot,
            Event.presentKHR slot i]) ∧
        (∀ sl b, Event.pipelineBarrier2 sl b ∉ tr) ∧
        (∀ sl c, Event.userCommand sl c ∉ tr) :=
  empty_pass_list_cycles cState (fun n => n) 2 cState_initialized rfl

/-- A successful init step: no error, the cached image vector and the
pass list are untouched, the command-buffer vector grows by the image
count (it is never cleared), and the sync-object vectors are recreated
at exactly the image count. -/
theorem init_step (s : RGState) (hne : s.swapchainImages.length ≠ 0)
    (h32 : s.swapchainImages.length < 2 ^ 32) :
    (init s).2 = none ∧
    (init s).1.swapchainImages = s.swapchainImages ∧
    (init s).1.passes = s.passes ∧
    (init s).1.commandBuffers.length =
      s.commandBuffers.length + s.swapchainImages.length ∧
    (init s).1.inFlightFences.length = s.swapchainImages.length ∧
    (init s).1.presentCompleteSemaphores.length = s.swapchainImages.length ∧
    (init s).1.renderFinishedSemaphores.length = s.swapchainImages.length ∧
    (init s).1.imageCount = s.swapchainImages.length := by
  have hn : s.swapchainImages.length % 2 ^ 32 = s.swapchainImages.length :=
    Nat.mod_eq_of_lt h32
  simp only [init]
  rw [hn, if_neg hne]
  simp

/-- Claim C10: a second (and any later) init with a nonzero image count
clears and recreates the semaphore and fence vectors at exactly
imageCount elements, but does not clear the command-buffer vector, so
after the k-th successful init the graph holds k * imageCount command
buffers; the one-command-buffer-per-slot invariant therefore holds only
after the first init. -/
theorem repeated_init_commandBuffers (images : List Image) (k : Nat)
    (h1 : 1 ≤ images.length) (h2 : images.length < 2 ^ 32) (hk : 1 ≤ k) :
    (∀ j, j < k → (init (initIter (mkRenderGraph images) j)).2 = none) ∧
    (initIter (mkRenderGraph images) k).commandBuffers.length =
      k * images.length ∧
    (initIter (mkRenderGraph images) k).inFlightFences.length =
      images.length ∧
    (initIter (mkRenderGraph images) k).presentCompleteSemaphores.length =
      images.length ∧
    (initIter (mkRenderGraph images) k).renderFinishedSemaphores.length =
      images.length ∧
    (initIter (mkRenderGraph images) k).imageCount = images.length ∧
    (2 ≤ k →
      (initIter (mkRenderGraph images) k).commandBuffers.length ≠
        (initIter (mkRenderGraph images) k).imageCount) := by
  have hne : images.length ≠ 0 := by omega
  have key : ∀ j, (initIter (mkRenderGraph images) j).swapchainImages =
      images ∧
      (initIter (mkRenderGraph images) j).commandBuffers.length =
        j * images.length := by
    intro j
    induction j with
    | zero => exact ⟨rfl, by simp [initIter, mkRenderGraph]⟩
    | succ j ih =>
        have hnej : (initIter (mkRenderGraph images) j).swapchainImages.length
            ≠ 0 := by rw [ih.1]; exact hne
        have h32j : (initIter (mkRenderGraph images) j).swapchainImages.length
            < 2 ^ 32 := by rw [ih.1]; exact h2
        have hs := init_step (initIter (mkRenderGraph images) j) hnej h32j
        refine ⟨?_, ?_⟩
        · show (init (initIter (mkRenderGraph images) j)).1.swapchainImages =
            images
          rw [hs.2.1, ih.1]
        · show (init (initIter
              (mkRenderGraph images) j)).1.commandBuffers.length =
            (j + 1) * images.length
          rw [hs.2.2.2.1, ih.2, ih.1, Nat.succ_mul]
  have hstep : ∀ j, (init (initIter (mkRenderGraph images) j)).2 = none ∧
      (init (initIter (mkRenderGraph images) j)).1.swapchainImages =
        (initIter (mkRenderGraph images) j).swapchainImages ∧
      (init (initIter (mkRenderGraph images) j)).1.passes =
        (initIter (mkRenderGraph images) j).passes ∧
      (init (initIter (mkRenderGraph images) j)).1.commandBuffers.length =
        (initIter (mkRenderGraph images) j).commandBuffers.length +
          (initIter (mkRenderGraph images) j).swapchainImages.length ∧
      (init (initIter (mkRenderGraph images) j)).1.inFlightFences.length =
        (initIter (mkRenderGraph images) j).swapchainImages.length ∧
      (init (initIter
          (mkRenderGraph images) j)).1.presentCompleteSemaphores.length =
        (initIter (mkRenderGraph images) j).swapchainImages.length ∧
      (init (initIter
          (mkRenderGraph images) j)).1.renderFinishedSemaphores.length =
        (initIter (mkRenderGraph images) j).swapchainImages.length ∧
      (init (initIter (mkRenderGraph images) j)).1.imageCount =
        (initIter (mkRenderGraph images) j).swapchainImages.length :=
    fun j => init_step (initIter (mkRenderGraph images) j)
      (by rw [(key j).1]; exact hne) (by rw [(key j).1]; exact h2)
  rcases k with _ | j
  · omega
  · have hs := hstep j
    have hic : (initIter (mkRenderGraph images) (j + 1)).imageCount =
        images.length := by
      show (init (initIter (mkRenderGraph images) j)).1.imageCount =
        images.length
      rw [hs.2.2.2.2.2.2.2, (key j).1]
    refine ⟨fun i _ => (hstep i).1, (key (j + 1)).2, ?_, ?_, ?_, hic, ?_⟩
    · show (init (initIter (mkRenderGraph images) j)).1.inFlightFences.length
        = images.length
      rw [hs.2.2.2.2.1, (key j).1]
    · show (init (initIter
          (mkRenderGraph images) j)).1.presentCompleteSemaphores.length =
        images.length
      rw [hs.2.2.2.2.2.1, (key j).1]
    · show (init (initIter
          (mkRenderGraph images) j)).1.renderFinishedSemaphores.length =
        images.length
      rw [hs.2.2.2.2.2.2.1, (key j).1]
    · intro hk2
      rw [(key (j + 1)).2, hic]
      have h2n : images.length < 2 * images.length := by omega
      have hkn : 2 * images.length ≤ (j + 1) * images.length :=
        mul_le_mul_right' hk2 images.length
      exact Nat.ne_of_gt (lt_of_lt_of_le h2n hkn)

/-- Witness for C10 with two inits on a two-image swapchain: four
command buffers but two fences and slots. -/
theorem repeated_init_commandBuffers_witness :
    (∀ j, j < 2 → (init (initIter (mkRenderGraph [5, 6]) j)).2 = none) ∧
    (initIter (mkRenderGraph [5, 6]) 2).commandBuffers.length =
      2 * ([5, 6] : List Image).length ∧
    (initIter (mkRenderGraph [5, 6]) 2).inFlightFences.length =
      ([5, 6] : List Image).length ∧
    (initIter (mkRenderGraph [5, 6]) 2).presentCompleteSemaphores.length =
      ([5, 6] : List Image).length ∧
    (initIter (mkRenderGraph [5, 6]) 2).renderFinishedSemaphores.length =
      ([5, 6] : List Image).length ∧
    (initIter (mkRenderGraph [5, 6]) 2).imageCount =
      ([5, 6] : List Image).length ∧
    (2 ≤ 2 →
      (initIter (mkRenderGraph [5, 6]) 2).commandBuffers.length ≠
        (initIter (mkRenderGraph [5, 6]) 2).imageCount) :=
  repeated_init_commandBuffers [5, 6] 2 (by norm_num) (by norm_num)
    (by norm_num)

end RenderGraph
